import Mathlib

/-
Verification of the upload-and-annotate pipeline of this repository.

The repository contains two revisions of the same Flask application:
  * src/main.py  - the later revision (error handling, cleanup, signed URLs)
  * src/app.py   - the earlier revision (no cleanup, metadata as .txt files)

We embed both handlers shallowly: the blob store and the local filesystem
are association lists from names to string contents, external services
(the Gemini captioning service, GCS puts, URL signing) are oracle fields
of a per-request record, and each handler is a pure Lean function from the
request oracle and the pre-state to a result, a post-state and a trace of
external calls.  Library functions used by the code (json.loads, json.dump,
os.path.join, os.path.splitext, os.path.basename, str.replace, str.strip,
file.readlines) are modelled explicitly below.
-/

namespace ImgApp

/-! ## Association-list state (blob store namespace and local filesystem) -/

/-- Look up the value stored under key `k` (first match). -/
def lookupKey : List (String × String) → String → Option String
  | [], _ => none
  | p :: l, k => if p.1 = k then some p.2 else lookupKey l k

/-- Store `v` under key `k`: replace in place if present, else append.
This models both writing a local file and a GCS object upload. -/
def insertKey : List (String × String) → String → String →
    List (String × String)
  | [], k, v => [(k, v)]
  | p :: l, k, v => if p.1 = k then (k, v) :: l else p :: insertKey l k v

/-- Delete the entry under key `k` (models `os.remove`; removing an absent
key is a no-op, which matches the guarded `if os.path.exists` calls). -/
def eraseKey : List (String × String) → String → List (String × String)
  | [], _ => []
  | p :: l, k => if p.1 = k then eraseKey l k else p :: eraseKey l k

theorem lookupKey_insertKey_self (l : List (String × String)) (k v : String) :
    lookupKey (insertKey l k v) k = some v := by
  induction l with
  | nil => simp [lookupKey, insertKey]
  | cons p l ih =>
    by_cases h : p.1 = k
    · simp [lookupKey, insertKey, h]
    · simp [lookupKey, insertKey, h, ih]

theorem lookupKey_insertKey_ne (l : List (String × String)) (k k' v : String)
    (h : k' ≠ k) : lookupKey (insertKey l k v) k' = lookupKey l k' := by
  induction l with
  | nil => simp [lookupKey, insertKey, Ne.symm h]
  | cons p l ih =>
    by_cases hp : p.1 = k
    · simp [lookupKey, insertKey, hp, Ne.symm h]
    · simp [lookupKey, insertKey, hp, ih]

theorem lookupKey_eraseKey_self (l : List (String × String)) (k : String) :
    lookupKey (eraseKey l k) k = none := by
  induction l with
  | nil => rfl
  | cons p l ih =>
    by_cases h : p.1 = k
    · simp [eraseKey, h, ih]
    · simp [lookupKey, eraseKey, h, ih]

theorem eraseKey_insertKey_of_nil (k v : String) :
    eraseKey (insertKey [] k v) k = [] := by
  simp [insertKey, eraseKey]

/-! ## Models of Python library functions -/

/-- Model of `str.startswith` (used only through `os.path.join`). -/
def strStartsWith (s pre : String) : Bool :=
  pre.data.isPrefixOf s.data

/-- Model of `str.endswith` for a single suffix; `endswith` on a tuple is
written as a disjunction at the call sites. -/
def strEndsWith (s suf : String) : Bool :=
  suf.data.isSuffixOf s.data

/-- Model of `os.path.join(a, b)` for the two-argument uses in the code:
if `b` is absolute it replaces `a`, otherwise it is appended after a
separator. -/
def path_join (a b : String) : String :=
  if strStartsWith b "/" then b else a ++ "/" ++ b

/-- Index of the last occurrence of `c` in `cs`, or `none`
(model of Python `str.rfind`). -/
def rfindIdx (cs : List Char) (c : Char) : Option Nat :=
  match cs.reverse.findIdx? (fun x => x == c) with
  | some i => some (cs.length - 1 - i)
  | none => none

/-- Model of `os.path.splitext` (posixpath): split at the last dot that
comes after the last separator, unless every character between the
separator and that dot is itself a dot (leading dots of the basename do
not start an extension). -/
def splitext (p : String) : String × String :=
  let cs := p.data
  let sepIdx : Int := match rfindIdx cs '/' with
    | some i => (i : Int)
    | none => -1
  let dotIdx : Int := match rfindIdx cs '.' with
    | some i => (i : Int)
    | none => -1
  if dotIdx > sepIdx then
    let start := (sepIdx + 1).toNat
    let stop := dotIdx.toNat
    let between := (cs.drop start).take (stop - start)
    if between.any (fun c => !(c == '.')) then
      (⟨cs.take stop⟩, ⟨cs.drop stop⟩)
    else (p, "")
  else (p, "")

/-- Model of `os.path.basename`: everything after the last separator. -/
def basename (p : String) : String :=
  match rfindIdx p.data '/' with
  | some i => ⟨p.data.drop (i + 1)⟩
  | none => p

/-- Python whitespace characters stripped by `str.strip()`. -/
def isPyWs (c : Char) : Bool :=
  c == ' ' || c == '\t' || c == '\n' || c == '\r' ||
  c == Char.ofNat 11 || c == Char.ofNat 12

/-- Drop leading Python whitespace from a character list. -/
def dropWsList : List Char → List Char
  | [] => []
  | c :: cs => if isPyWs c then dropWsList cs else c :: cs

/-- Model of Python `str.strip()` with no arguments. -/
def pyStrip (s : String) : String :=
  ⟨(dropWsList (dropWsList s.data).reverse).reverse⟩

/-- Model of Python `str.replace(pat, rep)` for a nonempty pattern:
left-to-right, non-overlapping; fuelled by the input length. -/
def replaceFuel (pat rep : List Char) : Nat → List Char → List Char
  | 0, cs => cs
  | _ + 1, [] => []
  | n + 1, c :: cs =>
    if pat.isPrefixOf (c :: cs) then
      rep ++ replaceFuel pat rep n (cs.drop (pat.length - 1))
    else c :: replaceFuel pat rep n cs

def pyReplace (s pat rep : String) : String :=
  ⟨replaceFuel pat.data rep.data s.data.length s.data⟩

example : pyReplace "a\x60\x60\x60json b" "\x60\x60\x60json" "" = "a b" := by
  decide

example : pyStrip "  hi \n" = "hi" := by decide

example : splitext "cat.png" = ("cat", ".png") := by decide

example : splitext "/tmp/cat.tar.gz" = ("/tmp/cat.tar", ".gz") := by decide

example : splitext ".json" = (".json", "") := by decide

example : basename "files/cat.txt" = "cat.txt" := by decide

example : path_join "/tmp" "a.jpg" = "/tmp/a.jpg" := by decide

example : path_join "/tmp" "/etc/x" = "/etc/x" := by decide

/-! ## JSON model (`json.loads` / `json.dump`)

Values produced by `json.loads`.  Floats are modelled as integers and
`\uXXXX` escapes are not modelled; neither is exercised by the code or by
any claim.  Duplicate keys are kept in order; lookups take the last
binding, as a Python `dict` built by the parser would. -/

inductive JVal where
  | jstr : String → JVal
  | jnum : Int → JVal
  | jbool : Bool → JVal
  | jnull : JVal
  | jarr : List JVal → JVal
  | jobj : List (String × JVal) → JVal
deriving Repr, Inhabited

/-- Model of Python `dict.get(k, default)` on a parsed JSON object:
the last binding of `k` wins. -/
def jgetD (fields : List (String × JVal)) (k : String) (d : JVal) : JVal :=
  match fields.reverse.find? (fun p => p.1 == k) with
  | some p => p.2
  | none => d

/-- Is the parsed value a Python `dict`? -/
def isJObj : JVal → Bool
  | .jobj _ => true
  | _ => false

/-- JSON string-escaping performed by `json.dump` (quote, backslash and
the common control characters; rarer control characters are passed
through by this model). -/
def escChar (c : Char) : List Char :=
  if c = '"' then ['\\', '"']
  else if c = '\\' then ['\\', '\\']
  else if c = '\n' then ['\\', 'n']
  else if c = '\t' then ['\\', 't']
  else if c = '\r' then ['\\', 'r']
  else [c]

/-- Serialize a string the way `json.dump` does. -/
def dumpStr (s : String) : String :=
  ⟨'"' :: (s.data.map escChar).flatten ++ ['"']⟩

mutual
/-- Model of `json.dump` with the default separators `", "` and `": "`. -/
def jdump : JVal → String
  | .jstr s => dumpStr s
  | .jnum n => toString n
  | .jbool b => if b then "true" else "false"
  | .jnull => "null"
  | .jarr xs => "[" ++ jdumpArr xs ++ "]"
  | .jobj fs => "\x7b" ++ jdumpObj fs ++ "\x7d"

def jdumpArr : List JVal → String
  | [] => ""
  | [x] => jdump x
  | x :: y :: xs => jdump x ++ ", " ++ jdumpArr (y :: xs)

def jdumpObj : List (String × JVal) → String
  | [] => ""
  | [(k, v)] => dumpStr k ++ ": " ++ jdump v
  | (k, v) :: q :: fs => dumpStr k ++ ": " ++ jdump v ++ ", " ++ jdumpObj (q :: fs)
end

/-- The metadata document the upload handler serializes:
`json.dump({"title": title, "description": description})`. -/
def jdump_td (title description : JVal) : String :=
  jdump (.jobj [("title", title), ("description", description)])

/-- Model of Python `str()` applied to a value obtained from `json.loads`
(used where such a value is interpolated into an f-string or rendered by
a template).  Only string payloads are exercised by the claims; container
reprs are approximated by their JSON serialization. -/
def pyStr : JVal → String
  | .jstr s => s
  | .jnum n => toString n
  | .jbool b => if b then "True" else "False"
  | .jnull => "None"
  | v => jdump v

/- Parser: JSON whitespace, strings with escapes, integers, literals,
arrays and objects, fuelled by the input length (each fuel step consumes
at least one character, so `length + 1` fuel always suffices). -/

def isJsonWs (c : Char) : Bool :=
  c == ' ' || c == '\t' || c == '\n' || c == '\r'

def skipWs : List Char → List Char
  | [] => []
  | c :: cs => if isJsonWs c then skipWs cs else c :: cs

/-- Inverse of the escape map recognised inside JSON strings. -/
def unescChar (c : Char) : Option Char :=
  if c = '"' then some '"'
  else if c = '\\' then some '\\'
  else if c = '/' then some '/'
  else if c = 'n' then some '\n'
  else if c = 't' then some '\t'
  else if c = 'r' then some '\r'
  else if c = 'b' then some (Char.ofNat 8)
  else if c = 'f' then some (Char.ofNat 12)
  else none

/-- Parse the body of a JSON string after the opening quote. -/
def parseStrAux (acc : List Char) : List Char → Option (String × List Char)
  | [] => none
  | '"' :: rest => some (⟨acc.reverse⟩, rest)
  | '\\' :: rest =>
    match rest with
    | [] => none
    | e :: rest' =>
      match unescChar e with
      | some c => parseStrAux (c :: acc) rest'
      | none => none
  | c :: rest => parseStrAux (c :: acc) rest

/-- Leading decimal digits of the input. -/
def takeDigits : List Char → List Char × List Char
  | [] => ([], [])
  | c :: cs =>
    if c.isDigit then
      let (ds, rest) := takeDigits cs
      (c :: ds, rest)
    else ([], c :: cs)

def digitsToNat (ds : List Char) : Nat :=
  ds.foldl (fun n c => 10 * n + (c.toNat - 48)) 0

/-- Parse a JSON number (modelled as an integer). -/
def parseNum (cs : List Char) : Option (Int × List Char) :=
  match cs with
  | '-' :: rest =>
    match takeDigits rest with
    | ([], _) => none
    | (ds, rest') => some (-(digitsToNat ds : Int), rest')
  | _ =>
    match takeDigits cs with
    | ([], _) => none
    | (ds, rest') => some ((digitsToNat ds : Int), rest')

mutual
def parseVal : Nat → List Char → Option (JVal × List Char)
  | 0, _ => none
  | f + 1, cs =>
    match skipWs cs with
    | [] => none
    | c :: cs' =>
      if c = '"' then
        match parseStrAux [] cs' with
        | some (s, rest) => some (.jstr s, rest)
        | none => none
      else if c = Char.ofNat 123 then parseObj f (skipWs cs')
      else if c = '[' then parseArr f (skipWs cs')
      else if c = 't' then
        if ['r', 'u', 'e'].isPrefixOf cs' then some (.jbool true, cs'.drop 3)
        else none
      else if c = 'f' then
        if ['a', 'l', 's', 'e'].isPrefixOf cs' then
          some (.jbool false, cs'.drop 4)
        else none
      else if c = 'n' then
        if ['u', 'l', 'l'].isPrefixOf cs' then some (.jnull, cs'.drop 3)
        else none
      else if c = '-' || c.isDigit then
        match parseNum (c :: cs') with
        | some (n, rest) => some (.jnum n, rest)
        | none => none
      else none

def parseObj : Nat → List Char → Option (JVal × List Char)
  | 0, _ => none
  | f + 1, cs =>
    match cs with
    | [] => none
    | c :: cs' =>
      if c = Char.ofNat 125 then some (.jobj [], cs')
      else if c = '"' then
        match parseStrAux [] cs' with
        | some (k, rest) =>
          match skipWs rest with
          | ':' :: rest2 =>
            match parseVal f rest2 with
            | some (v, rest3) => parseObjRest f [(k, v)] (skipWs rest3)
            | none => none
          | _ => none
        | none => none
      else none

def parseObjRest : Nat → List (String × JVal) → List Char →
    Option (JVal × List Char)
  | 0, _, _ => none
  | f + 1, acc, cs =>
    match cs with
    | [] => none
    | c :: cs' =>
      if c = Char.ofNat 125 then some (.jobj acc.reverse, cs')
      else if c = ',' then
        match skipWs cs' with
        | '"' :: cs2 =>
          match parseStrAux [] cs2 with
          | some (k, rest) =>
            match skipWs rest with
            | ':' :: rest2 =>
              match parseVal f rest2 with
              | some (v, rest3) => parseObjRest f ((k, v) :: acc) (skipWs rest3)
              | none => none
            | _ => none
          | none => none
        | _ => none
      else none

def parseArr : Nat → List Char → Option (JVal × List Char)
  | 0, _ => none
  | f + 1, cs =>
    match cs with
    | [] => none
    | c :: cs' =>
      if c = ']' then some (.jarr [], cs')
      else
        match parseVal f (c :: cs') with
        | some (v, rest) => parseArrRest f [v] (skipWs rest)
        | none => none

def parseArrRest : Nat → List JVal → List Char → Option (JVal × List Char)
  | 0, _, _ => none
  | f + 1, acc, cs =>
    match cs with
    | [] => none
    | c :: cs' =>
      if c = ']' then some (.jarr acc.reverse, cs')
      else if c = ',' then
        match parseVal f cs' with
        | some (v, rest) => parseArrRest f (v :: acc) (skipWs rest)
        | none => none
      else none
end

/-- Model of `json.loads`: parse one value and require only whitespace
after it. -/
def json_loads (s : String) : Option JVal :=
  match parseVal (s.data.length + 1) s.data with
  | some (v, rest) => if skipWs rest = [] then some v else none
  | none => none

example :
    json_loads "\x7b\"title\": \"A cat\", \"description\": \"naps\"\x7d" =
      some (.jobj [("title", .jstr "A cat"), ("description", .jstr "naps")]) :=
  rfl

example : json_loads "hello" = none := rfl

example : json_loads "42" = some (.jnum 42) := rfl

example : json_loads "null" = some .jnull := rfl

example : json_loads " [1, 2] " = some (.jarr [.jnum 1, .jnum 2]) := rfl

example : json_loads "\x7b\"a\": 1" = none := rfl

example :
    json_loads (jdump_td (.jstr "A cat") (.jstr "naps")) =
      some (.jobj [("title", .jstr "A cat"), ("description", .jstr "naps")]) :=
  rfl

/-! ## Shared state -/

/-- The mutable world both handlers act on: the GCS bucket contents and
the local filesystem. -/
structure St where
  blobs : List (String × String)
  fs : List (String × String)
deriving Repr

/-! ## Embedding of `src/main.py` -/

namespace Main

/-- Outcome of one interaction with the Gemini captioning service, as
observed inside `generative_ai`:
  * `uploadFail` - `genai.upload_file` raised, so `upload_to_gemini`
    caught the exception and returned `None`;
  * `exn` - some other call in the `try` block raised
    (model construction, chat, `send_message`, reading `response.text`);
  * `text t` - the service responded and `response.text` is `t`. -/
inductive CapOutcome where
  | uploadFail
  | exn
  | text : String → CapOutcome
deriving Repr, DecidableEq

/-- `response.text.replace("` ``` `json", "").replace("` ``` `", "").strip()`
from `main.py` line 100. -/
def strip_fences (t : String) : String :=
  pyStrip (pyReplace (pyReplace t "\x60\x60\x60json" "") "\x60\x60\x60" "")

/-- `generative_ai` from `main.py` lines 84-108.  All exceptions are
caught inside the function, so it is total: every service outcome is
mapped to a parsed JSON value. -/
def generative_ai (o : CapOutcome) : JVal :=
  match o with
  | .uploadFail =>
    .jobj [("title", .jstr "Upload Error"),
           ("description", .jstr "Failed to upload image to Gemini AI.")]
  | .exn =>
    .jobj [("title", .jstr "Error"),
           ("description", .jstr "An error occurred while processing the image.")]
  | .text t =>
    match json_loads (strip_fences t) with
    | some v => v
    | none =>
      .jobj [("title", .jstr "Invalid Response"),
             ("description", .jstr "Gemini AI returned an invalid response.")]

/-- `list_uploaded_images` from `main.py` lines 122-130: names ending in
`.jpg` or `.jpeg`; a storage exception is caught and yields `[]`. -/
def list_uploaded_images (listOk : Bool) (blobs : List (String × String)) :
    List String :=
  if listOk then
    (blobs.map Prod.fst).filter
      (fun n => strEndsWith n ".jpg" || strEndsWith n ".jpeg")
  else []

/-- `generate_temporary_url` from `main.py` lines 132-150: `None` when the
blob does not exist or signing raises, otherwise a v4 GET signed URL for
`blob_name` valid for `expiration` seconds (modelled as that pair).
The call site omits `expiration`, whose default is 3600. -/
def generate_temporary_url (signOk : Bool) (blobs : List (String × String))
    (blob_name : String) (expiration : Nat) : Option (String × Nat) :=
  match lookupKey blobs blob_name with
  | none => none
  | some _ => if signOk then some (blob_name, expiration) else none

/-- The oracle for one `POST /upload` request against `main.py`:
the multipart field, the captioning outcome and the success of the two
GCS puts (`upload_to_gcs` returns `False` and writes nothing when the
client raises). -/
structure UploadReq where
  hasFile : Bool
  filename : String
  content : String
  cap : CapOutcome
  imgPutOk : Bool
  metaPutOk : Bool
deriving Repr, DecidableEq

/-- HTTP-level result of the upload handler. -/
inductive Res where
  | badRequest : String → Res
  | serverError : String → Res
  | redirect : String → Res
deriving Repr, DecidableEq

/-- One external call made by the upload handler, in order. -/
inductive Ev where
  | capCall
  | putImg : String → Bool → Ev
  | putMeta : String → Bool → Ev
deriving Repr, DecidableEq

/-- The staging path used by `main.py` line 200:
`os.path.join('/tmp', file.filename)`. -/
def staging_path (filename : String) : String :=
  path_join "/tmp" filename

/-- The derived metadata key, `os.path.splitext(filename)[0] + '.json'`,
computed identically at `main.py` lines 210 and 240. -/
def json_filename (filename : String) : String :=
  (splitext filename).1 ++ ".json"

/-- `upload` from `main.py` lines 186-230.  The `finally` block removes
the staging file and the derived local metadata file on every exit path;
`json_path` is still `None` on paths that fail before it is assigned.
When `generative_ai` returns a non-dict JSON value, `.get` raises
`AttributeError`, which the surrounding `except` turns into a 500. -/
def upload (req : UploadReq) (st : St) : Res × St × List Ev :=
  if !req.hasFile then (.badRequest "No file uploaded", st, [])
  else if req.filename = "" then (.badRequest "No file selected", st, [])
  else
    let temp_path := staging_path req.filename
    let fs1 := insertKey st.fs temp_path req.content
    match generative_ai req.cap with
    | .jobj fields =>
      let title := jgetD fields "title" (.jstr "No title present")
      let description := jgetD fields "description" (.jstr "No description present")
      let json_name := json_filename req.filename
      let json_path := path_join "/tmp" json_name
      let json_data := jdump_td title description
      let fs2 := insertKey fs1 json_path json_data
      let fsFinal := eraseKey (eraseKey fs2 temp_path) json_path
      if req.imgPutOk then
        let blobs1 := insertKey st.blobs req.filename req.content
        if req.metaPutOk then
          (.redirect req.filename,
           ⟨insertKey blobs1 json_name json_data, fsFinal⟩,
           [.capCall, .putImg req.filename true, .putMeta json_name true])
        else
          (.serverError "File upload failed",
           ⟨blobs1, fsFinal⟩,
           [.capCall, .putImg req.filename true, .putMeta json_name false])
      else
        (.serverError "File upload failed",
         ⟨st.blobs, fsFinal⟩,
         [.capCall, .putImg req.filename false])
    | _ =>
      (.serverError "Internal Server Error",
       ⟨st.blobs, eraseKey fs1 temp_path⟩,
       [.capCall])

/-- HTTP-level result of `view_image`. -/
inductive ViewRes where
  | badRequest : String → ViewRes
  | notFound : String → ViewRes
  | serverError : String → ViewRes
  | crash
  | page : String → Nat → String → String → ViewRes
deriving Repr, DecidableEq

/-- `view_image` from `main.py` lines 232-264.  `page url expiry t d`
renders `view.html` with a signed URL for `url` valid `expiry` seconds
and the metadata fields; `crash` is the uncaught `AttributeError` when
the stored metadata is valid JSON but not an object. -/
def view_image (signOk : Bool) (blobs : List (String × String))
    (filenameArg : Option String) : ViewRes :=
  match filenameArg with
  | none => .badRequest "No file specified"
  | some filename =>
    if filename = "" then .badRequest "No file specified"
    else
      match lookupKey blobs (json_filename filename) with
      | none => .notFound "Metadata not found"
      | some content =>
        match json_loads content with
        | none => .serverError "Invalid metadata format"
        | some (.jobj fields) =>
          let title := jgetD fields "title" (.jstr "No title available")
          let description := jgetD fields "description" (.jstr "No description available")
          match generate_temporary_url signOk blobs filename 3600 with
          | none => .serverError "Error generating image URL"
          | some (u, e) => .page u e (pyStr title) (pyStr description)
        | some _ => .crash

/-- A metadata put (attempted, whether or not it succeeded). -/
def isMetaEv : Ev → Bool
  | .putMeta _ _ => true
  | _ => false

/-- A successful image put. -/
def isImgSuccessEv : Ev → Bool
  | .putImg _ true => true
  | _ => false

/-- A failed metadata put. -/
def isMetaFailEv : Ev → Bool
  | .putMeta _ false => true
  | _ => false

/-- A call to the captioning service. -/
def isCapEv : Ev → Bool
  | .capCall => true
  | _ => false

/-- Run a sequence of upload requests, threading the state. -/
def runUploads (reqs : List UploadReq) (st : St) : St :=
  reqs.foldl (fun s r => (upload r s).2.1) st

end Main

/-- The `/`-separated segments of a path or object name. -/
def splitSlashAux (acc : List Char) : List Char → List (List Char)
  | [] => [acc.reverse]
  | c :: cs =>
    if c = '/' then acc.reverse :: splitSlashAux [] cs
    else splitSlashAux (c :: acc) cs

def pathSegments (s : String) : List String :=
  (splitSlashAux [] s.data).map (fun l => ⟨l⟩)

/-- Does the name contain a `..` path-traversal segment? -/
def containsTraversal (s : String) : Bool :=
  (pathSegments s).any (fun seg => seg == "..")

example : containsTraversal "../evil.jpg" = true := by decide

example : containsTraversal "cat.jpg" = false := by decide

/-! ## General lemmas about the state model -/

theorem lookupKey_eraseKey_ne (l : List (String × String)) (k k' : String)
    (h : k' ≠ k) : lookupKey (eraseKey l k) k' = lookupKey l k' := by
  induction l with
  | nil => rfl
  | cons p l ih =>
    by_cases hp : p.1 = k
    · simp [lookupKey, eraseKey, hp, Ne.symm h, ih]
    · by_cases hq : p.1 = k'
      · simp [lookupKey, eraseKey, hp, hq, h]
      · simp [lookupKey, eraseKey, hp, hq, ih]

/-- Erasing both written names clears the first one, whatever they are. -/
theorem lookupKey_erase_erase (l : List (String × String)) (a b : String) :
    lookupKey (eraseKey (eraseKey l a) b) a = none := by
  by_cases hab : a = b
  · rw [← hab]
    exact lookupKey_eraseKey_self (eraseKey l a) a
  · rw [lookupKey_eraseKey_ne _ b a (fun hc => hab hc)]
    exact lookupKey_eraseKey_self l a

theorem mem_map_fst_of_lookupKey (l : List (String × String)) (k v : String)
    (h : lookupKey l k = some v) : k ∈ l.map Prod.fst := by
  induction l with
  | nil => simp [lookupKey] at h
  | cons p l ih =>
    by_cases hp : p.1 = k
    · simp [hp]
    · simp only [lookupKey, hp, if_neg] at h
      simp [ih h]

theorem erase2_insert2_nil (t j c d : String) :
    eraseKey (eraseKey (insertKey (insertKey [] t c) j d) t) j = [] := by
  by_cases h : t = j
  · simp [insertKey, eraseKey, h]
  · simp [insertKey, eraseKey, h, Ne.symm h]

theorem insert2_nil_of_ne (f j c d : String) (h : f ≠ j) :
    insertKey (insertKey [] f c) j d = [(f, c), (j, d)] := by
  simp [insertKey, h]

/-! ## Branch-evaluation lemmas for the `main.py` upload handler -/

namespace Main

theorem upload_eq_no_file (req : UploadReq) (st : St)
    (h : req.hasFile = false) :
    upload req st = (.badRequest "No file uploaded", st, []) := by
  simp [upload, h]

theorem upload_eq_empty_name (req : UploadReq) (st : St)
    (h1 : req.hasFile = true) (h2 : req.filename = "") :
    upload req st = (.badRequest "No file selected", st, []) := by
  simp [upload, h1, h2]

theorem upload_eq_success (req : UploadReq) (st : St)
    (fields : List (String × JVal))
    (h1 : req.hasFile = true) (h2 : ¬ req.filename = "")
    (h3 : generative_ai req.cap = .jobj fields)
    (h4 : req.imgPutOk = true) (h5 : req.metaPutOk = true) :
    upload req st =
      (.redirect req.filename,
       ⟨insertKey (insertKey st.blobs req.filename req.content)
          (json_filename req.filename)
          (jdump_td (jgetD fields "title" (.jstr "No title present"))
            (jgetD fields "description" (.jstr "No description present"))),
        eraseKey
          (eraseKey
            (insertKey (insertKey st.fs (staging_path req.filename) req.content)
              (path_join "/tmp" (json_filename req.filename))
              (jdump_td (jgetD fields "title" (.jstr "No title present"))
                (jgetD fields "description" (.jstr "No description present"))))
            (staging_path req.filename))
          (path_join "/tmp" (json_filename req.filename))⟩,
       [.capCall, .putImg req.filename true,
        .putMeta (json_filename req.filename) true]) := by
  simp [upload, h1, h2, h3, h4, h5]

theorem upload_eq_meta_fail (req : UploadReq) (st : St)
    (fields : List (String × JVal))
    (h1 : req.hasFile = true) (h2 : ¬ req.filename = "")
    (h3 : generative_ai req.cap = .jobj fields)
    (h4 : req.imgPutOk = true) (h5 : req.metaPutOk = false) :
    upload req st =
      (.serverError "File upload failed",
       ⟨insertKey st.blobs req.filename req.content,
        eraseKey
          (eraseKey
            (insertKey (insertKey st.fs (staging_path req.filename) req.content)
              (path_join "/tmp" (json_filename req.filename))
              (jdump_td (jgetD fields "title" (.jstr "No title present"))
                (jgetD fields "description" (.jstr "No description present"))))
            (staging_path req.filename))
          (path_join "/tmp" (json_filename req.filename))⟩,
       [.capCall, .putImg req.filename true,
        .putMeta (json_filename req.filename) false]) := by
  simp [upload, h1, h2, h3, h4, h5]

theorem upload_eq_img_fail (req : UploadReq) (st : St)
    (fields : List (String × JVal))
    (h1 : req.hasFile = true) (h2 : ¬ req.filename = "")
    (h3 : generative_ai req.cap = .jobj fields)
    (h4 : req.imgPutOk = false) :
    upload req st =
      (.serverError "File upload failed",
       ⟨st.blobs,
        eraseKey
          (eraseKey
            (insertKey (insertKey st.fs (staging_path req.filename) req.content)
              (path_join "/tmp" (json_filename req.filename))
              (jdump_td (jgetD fields "title" (.jstr "No title present"))
                (jgetD fields "description" (.jstr "No description present"))))
            (staging_path req.filename))
          (path_join "/tmp" (json_filename req.filename))⟩,
       [.capCall, .putImg req.filename false]) := by
  simp [upload, h1, h2, h3, h4]

theorem upload_eq_nonobj (req : UploadReq) (st : St)
    (h1 : req.hasFile = true) (h2 : ¬ req.filename = "")
    (h3 : isJObj (generative_ai req.cap) = false) :
    upload req st =
      (.serverError "Internal Server Error",
       ⟨st.blobs,
        eraseKey (insertKey st.fs (staging_path req.filename) req.content)
          (staging_path req.filename)⟩,
       [.capCall]) := by
  rcases hg : generative_ai req.cap with s | n | b | _ | xs | fields <;>
    simp [upload, h1, h2, hg] <;> simp [hg, isJObj] at h3

end Main

/-! ## Embedding of `src/app.py` -/

namespace AppPy

/-- Outcome of `generative_ai` in `app.py` (lines 22-32): the function has
no exception handling, so either some call raises (`exn`) or it returns
`response.text`. -/
inductive CapOutcome where
  | exn
  | text : String → CapOutcome
deriving Repr, DecidableEq

/-- Request oracle for one `POST /upload` against `app.py`.  The two
`upload_to_gcs` calls have no error handling, so a failed put raises. -/
structure UploadReq where
  hasFile : Bool
  filename : String
  content : String
  cap : CapOutcome
  imgPutRaises : Bool
  metaPutRaises : Bool
deriving Repr, DecidableEq

/-- HTTP-level result of `app.py`'s upload handler:
  * `badRequestKey` - `request.files['image']` raised
    `BadRequestKeyError` (HTTP 400) because the field is absent;
  * `crash` - an uncaught exception, surfaced by Flask as HTTP 500;
  * `errorPage msg` - the handler returned the string `msg`
    (line 68), which Flask serves with HTTP 200;
  * `redirectHome` - redirect to `/`. -/
inductive Res where
  | badRequestKey
  | crash
  | errorPage : String → Res
  | redirectHome
deriving Repr, DecidableEq

/-- One external call made by `app.py`'s upload handler, in order.  A put
that raises is recorded with `false` (the exception then aborts the
handler), mirroring the trace kept for `main.py`. -/
inductive Ev where
  | capCall
  | putImg : String → Bool → Ev
  | putMeta : String → Bool → Ev
deriving Repr, DecidableEq

/-- A failed (raising) metadata put. -/
def isMetaFailEv : Ev → Bool
  | .putMeta _ ok => !ok
  | _ => false

/-- `response.replace('json', '').replace('` ``` `', '').strip()` from
`app.py` line 63 (note: it removes every occurrence of the four letters
`json`, not of a fence tag). -/
def strip_fences (t : String) : String :=
  pyStrip (pyReplace (pyReplace t "json" "") "\x60\x60\x60" "")

/-- `upload` from `app.py` lines 52-81.  An empty client filename makes
`file.save(os.path.join('files', ''))` open the `files` directory for
writing, which raises and is not caught.  There is no cleanup of the
files written under `files/`. -/
def upload (req : UploadReq) (st : St) : Res × St × List Ev :=
  if !req.hasFile then (.badRequestKey, st, [])
  else if req.filename = "" then (.crash, st, [])
  else
    let local_path := path_join "files" req.filename
    let fs1 := insertKey st.fs local_path req.content
    match req.cap with
    | .exn => (.crash, ⟨st.blobs, fs1⟩, [.capCall])
    | .text t =>
      match json_loads (strip_fences t) with
      | none =>
        (.errorPage "Error processing AI response.", ⟨st.blobs, fs1⟩,
         [.capCall])
      | some v =>
        match v with
        | .jobj fields =>
          let title := jgetD fields "title" (.jstr "No title present")
          let description := jgetD fields "description" (.jstr "No description present")
          let text_path := (splitext local_path).1 ++ ".txt"
          let text_content := pyStr title ++ "\n" ++ pyStr description
          let fs2 := insertKey fs1 text_path text_content
          if req.imgPutRaises then
            (.crash, ⟨st.blobs, fs2⟩,
             [.capCall, .putImg req.filename false])
          else
            let blobs1 := insertKey st.blobs req.filename req.content
            if req.metaPutRaises then
              (.crash, ⟨blobs1, fs2⟩,
               [.capCall, .putImg req.filename true,
                .putMeta (basename text_path) false])
            else
              (.redirectHome,
               ⟨insertKey blobs1 (basename text_path) text_content, fs2⟩,
               [.capCall, .putImg req.filename true,
                .putMeta (basename text_path) true])
        -- `.get` on a non-dict raises inside the bare `except`, which
        -- returns the same error page.
        | _ =>
          (.errorPage "Error processing AI response.", ⟨st.blobs, fs1⟩,
           [.capCall])

/-- `list_files` from `app.py` lines 40-44: every blob name, unfiltered. -/
def list_files (blobs : List (String × String)) : List String :=
  blobs.map Prod.fst

/-- Result of `view_file`: it always renders the view page (HTTP 200). -/
inductive ViewRes where
  | page : String → String → String → ViewRes
deriving Repr, DecidableEq

/-- Model of `file.readlines()`: split after each newline, keeping it. -/
def readlinesAux (acc : List Char) : List Char → List String
  | [] => if acc = [] then [] else [⟨acc.reverse⟩]
  | c :: cs =>
    if c = '\n' then ⟨(c :: acc).reverse⟩ :: readlinesAux [] cs
    else readlinesAux (c :: acc) cs

def readlines (s : String) : List String :=
  readlinesAux [] s.data

/-- `view_file` from `app.py` lines 88-101: when the local metadata text
file is missing it silently renders the page with default title and
description. -/
def view_file (filename : String) (fs : List (String × String)) : ViewRes :=
  let text_filename := (splitext filename).1 ++ ".txt"
  let text_path := path_join "files" text_filename
  match lookupKey fs text_path with
  | none => .page filename "No title" "No description"
  | some content =>
    let lines := readlines content
    let title := match lines.head? with
      | some l => pyStrip l
      | none => "No title"
    let description :=
      if lines.length > 1 then
        pyStrip (String.intercalate "\n" (lines.drop 1))
      else "No description"
    .page filename title description

end AppPy

/-! ## Claim C1 -/

/-- C1, counterexample.  The claim says a captioning failure is fatal and
nothing is persisted.  In `main.py`, with the service raising
(`CapOutcome.exn`) the handler instead succeeds with a redirect and
persists both the image object and an error-text metadata object. -/
theorem C1_counterexample :
    (Main.upload ⟨true, "cat.jpg", "IMG", .exn, true, true⟩ ⟨[], []⟩).1 =
      Main.Res.redirect "cat.jpg" ∧
    lookupKey
      (Main.upload ⟨true, "cat.jpg", "IMG", .exn, true, true⟩ ⟨[], []⟩).2.1.blobs
      "cat.jpg" = some "IMG" ∧
    lookupKey
      (Main.upload ⟨true, "cat.jpg", "IMG", .exn, true, true⟩ ⟨[], []⟩).2.1.blobs
      "cat.json" =
      some (jdump_td (.jstr "Error")
        (.jstr "An error occurred while processing the image.")) :=
  ⟨rfl, rfl, rfl⟩

/-- C1, amended.  In `main.py` a captioning-service failure (upload error
or any exception) is not fatal and there is no retry: `generative_ai` is
called exactly once, returns error-text metadata, the handler persists
both the image and that metadata, succeeds with a redirect, and the
staging file no longer exists afterward. -/
theorem C1_amended (req : Main.UploadReq) (st : St)
    (h1 : req.hasFile = true) (h2 : req.filename ≠ "")
    (h6 : Main.json_filename req.filename ≠ req.filename)
    (hc : req.cap = .exn ∨ req.cap = .uploadFail)
    (h4 : req.imgPutOk = true) (h5 : req.metaPutOk = true) :
    (Main.upload req st).1 = Main.Res.redirect req.filename ∧
    lookupKey (Main.upload req st).2.1.blobs req.filename = some req.content ∧
    (req.cap = .exn →
      lookupKey (Main.upload req st).2.1.blobs (Main.json_filename req.filename) =
        some (jdump_td (.jstr "Error")
          (.jstr "An error occurred while processing the image."))) ∧
    (req.cap = .uploadFail →
      lookupKey (Main.upload req st).2.1.blobs (Main.json_filename req.filename) =
        some (jdump_td (.jstr "Upload Error")
          (.jstr "Failed to upload image to Gemini AI."))) ∧
    lookupKey (Main.upload req st).2.1.fs (Main.staging_path req.filename) = none ∧
    (Main.upload req st).2.2.filter Main.isCapEv = [Main.Ev.capCall] := by
  have hcancel :
      ∀ fields : List (String × JVal),
        Main.generative_ai req.cap = .jobj fields →
        (Main.upload req st).1 = Main.Res.redirect req.filename ∧
        lookupKey (Main.upload req st).2.1.blobs req.filename = some req.content ∧
        lookupKey (Main.upload req st).2.1.blobs (Main.json_filename req.filename) =
          some (jdump_td (jgetD fields "title" (.jstr "No title present"))
            (jgetD fields "description" (.jstr "No description present"))) ∧
        lookupKey (Main.upload req st).2.1.fs (Main.staging_path req.filename) = none ∧
        (Main.upload req st).2.2.filter Main.isCapEv = [Main.Ev.capCall] := by
    intro fields h3
    rw [Main.upload_eq_success req st fields h1 h2 h3 h4 h5]
    refine ⟨rfl, ?_, ?_, ?_, ?_⟩
    · rw [lookupKey_insertKey_ne _ _ _ _ (Ne.symm h6)]
      exact lookupKey_insertKey_self _ _ _
    · exact lookupKey_insertKey_self _ _ _
    · exact lookupKey_erase_erase _ _ _
    · simp [Main.isCapEv]
  rcases hc with hcap | hcap
  · obtain ⟨a, b, c, d, e⟩ := hcancel _ (by rw [hcap]; rfl)
    exact ⟨a, b, fun _ => c, fun hk => absurd (hcap.symm.trans hk) (by decide), d, e⟩
  · obtain ⟨a, b, c, d, e⟩ := hcancel _ (by rw [hcap]; rfl)
    exact ⟨a, b, fun hk => absurd (hcap.symm.trans hk) (by decide), fun _ => c, d, e⟩

/-- C1, witness for the amended theorem at a concrete input. -/
theorem C1_amended_witness :
    (Main.upload ⟨true, "dog.jpg", "BYTES", .uploadFail, true, true⟩
        ⟨[], [("x", "y")]⟩).1 = Main.Res.redirect "dog.jpg" ∧
    lookupKey
      (Main.upload ⟨true, "dog.jpg", "BYTES", .uploadFail, true, true⟩
        ⟨[], [("x", "y")]⟩).2.1.blobs "dog.jpg" = some "BYTES" ∧
    (Main.CapOutcome.uploadFail = Main.CapOutcome.exn →
      lookupKey
        (Main.upload ⟨true, "dog.jpg", "BYTES", .uploadFail, true, true⟩
          ⟨[], [("x", "y")]⟩).2.1.blobs "dog.json" =
        some (jdump_td (.jstr "Error")
          (.jstr "An error occurred while processing the image."))) ∧
    (Main.CapOutcome.uploadFail = Main.CapOutcome.uploadFail →
      lookupKey
        (Main.upload ⟨true, "dog.jpg", "BYTES", .uploadFail, true, true⟩
          ⟨[], [("x", "y")]⟩).2.1.blobs "dog.json" =
        some (jdump_td (.jstr "Upload Error")
          (.jstr "Failed to upload image to Gemini AI."))) ∧
    lookupKey
      (Main.upload ⟨true, "dog.jpg", "BYTES", .uploadFail, true, true⟩
        ⟨[], [("x", "y")]⟩).2.1.fs "/tmp/dog.jpg" = none ∧
    (Main.upload ⟨true, "dog.jpg", "BYTES", .uploadFail, true, true⟩
        ⟨[], [("x", "y")]⟩).2.2.filter Main.isCapEv = [Main.Ev.capCall] :=
  C1_amended ⟨true, "dog.jpg", "BYTES", .uploadFail, true, true⟩ ⟨[], [("x", "y")]⟩
    rfl (by decide) (by decide) (Or.inr rfl) rfl rfl

/-! ## Claim C2 -/

/-- C2, counterexample.  When the service responds with unparseable text,
`main.py` stores the image and succeeds, but the stored metadata is the
"Invalid Response" document produced inside `generative_ai`, not the
sentinel `No title present` / `No description present` record the claim
asserts (those sentinels are only the `.get` defaults used when parsing
succeeded but a field is missing). -/
theorem C2_counterexample :
    (Main.upload ⟨true, "cat.jpg", "IMG", .text "hello", true, true⟩
        ⟨[], []⟩).1 = Main.Res.redirect "cat.jpg" ∧
    lookupKey
      (Main.upload ⟨true, "cat.jpg", "IMG", .text "hello", true, true⟩
        ⟨[], []⟩).2.1.blobs "cat.json" =
      some (jdump_td (.jstr "Invalid Response")
        (.jstr "Gemini AI returned an invalid response.")) ∧
    jdump_td (.jstr "Invalid Response")
        (.jstr "Gemini AI returned an invalid response.") ≠
      jdump_td (.jstr "No title present") (.jstr "No description present") :=
  ⟨rfl, rfl, by decide⟩

/-- C2, amended.  For every upload whose captioning text does not parse as
JSON (after fence stripping), the request still succeeds and the image is
stored, but the stored metadata record equals the error-text values
`title = "Invalid Response"`,
`description = "Gemini AI returned an invalid response."`. -/
theorem C2_amended (req : Main.UploadReq) (st : St) (t : String)
    (h1 : req.hasFile = true) (h2 : req.filename ≠ "")
    (h6 : Main.json_filename req.filename ≠ req.filename)
    (hcap : req.cap = .text t)
    (hparse : json_loads (Main.strip_fences t) = none)
    (h4 : req.imgPutOk = true) (h5 : req.metaPutOk = true) :
    (Main.upload req st).1 = Main.Res.redirect req.filename ∧
    lookupKey (Main.upload req st).2.1.blobs req.filename = some req.content ∧
    lookupKey (Main.upload req st).2.1.blobs (Main.json_filename req.filename) =
      some (jdump_td (.jstr "Invalid Response")
        (.jstr "Gemini AI returned an invalid response.")) := by
  have h3 : Main.generative_ai req.cap =
      .jobj [("title", .jstr "Invalid Response"),
             ("description", .jstr "Gemini AI returned an invalid response.")] := by
    rw [hcap]
    simp [Main.generative_ai, hparse]
  rw [Main.upload_eq_success req st _ h1 h2 h3 h4 h5]
  refine ⟨rfl, ?_, ?_⟩
  · rw [lookupKey_insertKey_ne _ _ _ _ (Ne.symm h6)]
    exact lookupKey_insertKey_self _ _ _
  · exact lookupKey_insertKey_self _ _ _

/-- C2, witness for the amended theorem at a concrete input. -/
theorem C2_amended_witness :
    (Main.upload ⟨true, "cat.jpg", "IMG",
        .text "\x60\x60\x60json not json \x60\x60\x60", true, true⟩
      ⟨[], []⟩).1 = Main.Res.redirect "cat.jpg" ∧
    lookupKey
      (Main.upload ⟨true, "cat.jpg", "IMG",
          .text "\x60\x60\x60json not json \x60\x60\x60", true, true⟩
        ⟨[], []⟩).2.1.blobs "cat.jpg" = some "IMG" ∧
    lookupKey
      (Main.upload ⟨true, "cat.jpg", "IMG",
          .text "\x60\x60\x60json not json \x60\x60\x60", true, true⟩
        ⟨[], []⟩).2.1.blobs "cat.json" =
      some (jdump_td (.jstr "Invalid Response")
        (.jstr "Gemini AI returned an invalid response.")) :=
  C2_amended ⟨true, "cat.jpg", "IMG",
      .text "\x60\x60\x60json not json \x60\x60\x60", true, true⟩ ⟨[], []⟩
    "\x60\x60\x60json not json \x60\x60\x60"
    rfl (by decide) (by decide) rfl rfl rfl rfl

/-! ## Claim C3 -/

/-- Helper for C3: one `main.py` upload leaves an empty staging directory
empty, whatever the request (any validation, captioning or storage
outcome). -/
theorem upload_fs_empty (req : Main.UploadReq) (st : St) (h : st.fs = []) :
    (Main.upload req st).2.1.fs = [] := by
  by_cases h1 : req.hasFile = true
  · by_cases h2 : req.filename = ""
    · rw [Main.upload_eq_empty_name req st h1 h2]
      exact h
    · by_cases hobj : isJObj (Main.generative_ai req.cap) = true
      · rcases hg : Main.generative_ai req.cap with s | n | b | _ | xs | fields <;>
          rw [hg] at hobj <;> simp [isJObj] at hobj
        by_cases h4 : req.imgPutOk = true
        · by_cases h5 : req.metaPutOk = true
          · rw [Main.upload_eq_success req st fields h1 h2 hg h4 h5]
            simp only [h]
            exact erase2_insert2_nil _ _ _ _
          · rw [Main.upload_eq_meta_fail req st fields h1 h2 hg h4
              (Bool.not_eq_true _ ▸ h5)]
            simp only [h]
            exact erase2_insert2_nil _ _ _ _
        · rw [Main.upload_eq_img_fail req st fields h1 h2 hg
            (Bool.not_eq_true _ ▸ h4)]
          simp only [h]
          exact erase2_insert2_nil _ _ _ _
      · rw [Main.upload_eq_nonobj req st h1 h2 (Bool.not_eq_true _ ▸ hobj)]
        simp only [h]
        exact eraseKey_insertKey_of_nil _ _
  · rw [Main.upload_eq_no_file req st (Bool.not_eq_true _ ▸ h1)]
    exact h

/-- C3, counterexample.  `app.py`'s upload handler performs no cleanup:
a single successful upload leaves the staged image and the derived local
metadata file under `files/`, so the claim's "zero staging files remain
after any sequence of uploads" fails on it. -/
theorem C3_counterexample :
    (AppPy.upload ⟨true, "cat.jpg", "IMG",
        .text "\x7b\"title\": \"A cat\", \"description\": \"naps\"\x7d",
        false, false⟩ ⟨[], []⟩).2.1.fs =
      [("files/cat.jpg", "IMG"), ("files/cat.txt", "A cat\nnaps")] ∧
    [("files/cat.jpg", "IMG"), ("files/cat.txt", "A cat\nnaps")] ≠
      ([] : List (String × String)) :=
  ⟨rfl, by decide⟩

/-- C3, amended.  In `main.py` the `finally` block deletes the staging
file and the derived local metadata file on every exit path, so any
sequence of uploads starting from an empty staging directory — whatever
mix of validation failures, captioning outcomes and storage failures —
leaves it empty.  (`app.py`'s earlier handler never deletes its staged
files; see the counterexample.) -/
theorem C3_amended (reqs : List Main.UploadReq) (st : St) (h : st.fs = []) :
    (Main.runUploads reqs st).fs = [] := by
  induction reqs generalizing st with
  | nil => exact h
  | cons r rs ih =>
    have hstep := upload_fs_empty r st h
    simpa [Main.runUploads, List.foldl_cons] using
      ih (Main.upload r st).2.1 hstep

/-- C3, witness: three uploads (a success, a captioning failure, a
storage failure) starting from an empty staging directory leave it
empty. -/
theorem C3_amended_witness :
    (Main.runUploads
      [⟨true, "cat.jpg", "IMG",
          .text "\x7b\"title\": \"A cat\", \"description\": \"naps\"\x7d",
          true, true⟩,
       ⟨true, "dog.jpg", "D", .exn, true, true⟩,
       ⟨true, "eel.jpg", "E", .text "42", false, false⟩]
      ⟨[], []⟩).fs = [] :=
  C3_amended _ ⟨[], []⟩ rfl

/-! ## Claim C4 -/

/-- Helper for C4, `main.py` side: any attempted metadata put is strictly
preceded in the trace by a successful image put, and a failed metadata
put makes the handler answer 500. -/
theorem main_upload_trace_ordering (req : Main.UploadReq) (st : St) :
    (∀ n j b, (Main.upload req st).2.2.get? n = some (Main.Ev.putMeta j b) →
      ∃ m f, m < n ∧
        (Main.upload req st).2.2.get? m = some (Main.Ev.putImg f true)) ∧
    ((Main.upload req st).2.2.any Main.isMetaFailEv = true →
      (Main.upload req st).1 = Main.Res.serverError "File upload failed") := by
  by_cases h1 : req.hasFile = true
  · by_cases h2 : req.filename = ""
    · rw [Main.upload_eq_empty_name req st h1 h2]
      exact ⟨fun n j b hn => by simp at hn, fun hc => by simp [Main.isMetaFailEv] at hc⟩
    · by_cases hobj : isJObj (Main.generative_ai req.cap) = true
      · rcases hg : Main.generative_ai req.cap with s | n | b | _ | xs | fields <;>
          rw [hg] at hobj <;> simp [isJObj] at hobj
        by_cases h4 : req.imgPutOk = true
        · by_cases h5 : req.metaPutOk = true
          · rw [Main.upload_eq_success req st fields h1 h2 hg h4 h5]
            constructor
            · intro n j b hn
              match n with
              | 0 => simp [List.get?] at hn
              | 1 => simp [List.get?] at hn
              | 2 => exact ⟨1, req.filename, by omega, rfl⟩
              | n + 3 => simp [List.get?] at hn
            · intro hc
              simp [Main.isMetaFailEv] at hc
          · rw [Main.upload_eq_meta_fail req st fields h1 h2 hg h4
              (Bool.not_eq_true _ ▸ h5)]
            constructor
            · intro n j b hn
              match n with
              | 0 => simp [List.get?] at hn
              | 1 => simp [List.get?] at hn
              | 2 => exact ⟨1, req.filename, by omega, rfl⟩
              | n + 3 => simp [List.get?] at hn
            · intro _
              rfl
        · rw [Main.upload_eq_img_fail req st fields h1 h2 hg
            (Bool.not_eq_true _ ▸ h4)]
          constructor
          · intro n j b hn
            match n with
            | 0 => simp [List.get?] at hn
            | 1 => simp [List.get?] at hn
            | n + 2 => simp [List.get?] at hn
          · intro _
            rfl
      · rw [Main.upload_eq_nonobj req st h1 h2 (Bool.not_eq_true _ ▸ hobj)]
        constructor
        · intro n j b hn
          match n with
          | 0 => simp [List.get?] at hn
          | n + 1 => simp [List.get?] at hn
        · intro hc
          simp [Main.isMetaFailEv] at hc
  · rw [Main.upload_eq_no_file req st (Bool.not_eq_true _ ▸ h1)]
    exact ⟨fun n j b hn => by simp at hn, fun hc => by simp [Main.isMetaFailEv] at hc⟩

/-- Helper for C4, `app.py` side: the handler's external-call trace has
one of four shapes — no calls, captioning only, captioning plus a failed
image put, or captioning plus a successful image put followed by one
metadata put — and in the last shape a failed metadata put means the
handler crashed (HTTP 500). -/
theorem appPy_upload_shape (req : AppPy.UploadReq) (st : St) :
    (AppPy.upload req st).2.2 = [] ∨
    (AppPy.upload req st).2.2 = [AppPy.Ev.capCall] ∨
    (AppPy.upload req st).2.2 =
      [AppPy.Ev.capCall, AppPy.Ev.putImg req.filename false] ∨
    ∃ x b, (AppPy.upload req st).2.2 =
        [AppPy.Ev.capCall, AppPy.Ev.putImg req.filename true,
         AppPy.Ev.putMeta x b] ∧
      (b = false → (AppPy.upload req st).1 = AppPy.Res.crash) := by
  by_cases h1 : req.hasFile = true
  · by_cases h2 : req.filename = ""
    · exact Or.inl (by simp [AppPy.upload, h1, h2])
    · cases hcap : req.cap with
      | exn => exact Or.inr (Or.inl (by simp [AppPy.upload, h1, h2, hcap]))
      | text t =>
        cases hp : json_loads (AppPy.strip_fences t) with
        | none =>
          exact Or.inr (Or.inl (by simp [AppPy.upload, h1, h2, hcap, hp]))
        | some v =>
          rcases v with s | nn | bb | _ | xs | fields
          · exact Or.inr (Or.inl (by simp [AppPy.upload, h1, h2, hcap, hp]))
          · exact Or.inr (Or.inl (by simp [AppPy.upload, h1, h2, hcap, hp]))
          · exact Or.inr (Or.inl (by simp [AppPy.upload, h1, h2, hcap, hp]))
          · exact Or.inr (Or.inl (by simp [AppPy.upload, h1, h2, hcap, hp]))
          · exact Or.inr (Or.inl (by simp [AppPy.upload, h1, h2, hcap, hp]))
          · by_cases himg : req.imgPutRaises = true
            · exact Or.inr (Or.inr (Or.inl
                (by simp [AppPy.upload, h1, h2, hcap, hp, himg])))
            · have himgf : req.imgPutRaises = false := by
                cases hb : req.imgPutRaises
                · rfl
                · exact absurd hb himg
              by_cases hmeta : req.metaPutRaises = true
              · refine Or.inr (Or.inr (Or.inr
                  ⟨basename ((splitext (path_join "files" req.filename)).1 ++ ".txt"),
                   false, ?_, fun _ => ?_⟩))
                · simp [AppPy.upload, h1, h2, hcap, hp, himgf, hmeta]
                · simp [AppPy.upload, h1, h2, hcap, hp, himgf, hmeta]
              · have hmf : req.metaPutRaises = false := by
                  cases hb : req.metaPutRaises
                  · rfl
                  · exact absurd hb hmeta
                refine Or.inr (Or.inr (Or.inr
                  ⟨basename ((splitext (path_join "files" req.filename)).1 ++ ".txt"),
                   true, ?_, fun hb => by cases hb⟩))
                simp [AppPy.upload, h1, h2, hcap, hp, himgf, hmf]
  · have h1f : req.hasFile = false := by
      cases hb : req.hasFile
      · rfl
      · exact absurd hb h1
    exact Or.inl (by simp [AppPy.upload, h1f])

/-- Helper for C4, `app.py` side: the same ordering and failure-reporting
property as for `main.py` — the puts are sequential, a metadata put only
ever follows a successful image put, and a raising metadata put aborts
the handler with an uncaught exception (HTTP 500), never success. -/
theorem appPy_upload_trace_ordering (req : AppPy.UploadReq) (st : St) :
    (∀ n j b, (AppPy.upload req st).2.2.get? n = some (AppPy.Ev.putMeta j b) →
      ∃ m f, m < n ∧
        (AppPy.upload req st).2.2.get? m = some (AppPy.Ev.putImg f true)) ∧
    ((AppPy.upload req st).2.2.any AppPy.isMetaFailEv = true →
      (AppPy.upload req st).1 = AppPy.Res.crash) := by
  rcases appPy_upload_shape req st with h | h | h | ⟨x, b, htr, himp⟩
  · constructor
    · intro n j b hn
      rw [h] at hn
      simp at hn
    · intro hc
      rw [h] at hc
      simp at hc
  · constructor
    · intro n j b hn
      rw [h] at hn
      match n with
      | 0 => simp at hn
      | n + 1 => simp at hn
    · intro hc
      rw [h] at hc
      simp [AppPy.isMetaFailEv] at hc
  · constructor
    · intro n j b hn
      rw [h] at hn
      match n with
      | 0 => simp at hn
      | 1 => simp at hn
      | n + 2 => simp at hn
    · intro hc
      rw [h] at hc
      simp [AppPy.isMetaFailEv] at hc
  · constructor
    · intro n j b' hn
      rw [htr] at hn
      match n with
      | 0 => simp at hn
      | 1 => simp at hn
      | 2 => exact ⟨1, req.filename, by omega, by rw [htr]; rfl⟩
      | n + 3 => simp at hn
    · intro hc
      rw [htr] at hc
      simp [AppPy.isMetaFailEv] at hc
      exact himp hc

/-- C4, confirmed.  In every upload, by either handler: any attempted
metadata put is strictly preceded in the handler's external-call trace by
a successful image put (so the image object is persisted first and
metadata is never attempted unless the image write succeeded); and a
failed metadata put makes `main.py` answer 500 ("File upload failed") and
makes `app.py` abort with an uncaught exception (HTTP 500) — never
success. -/
theorem C4_image_before_metadata (req : Main.UploadReq)
    (areq : AppPy.UploadReq) (st ast : St) :
    ((∀ n j b, (Main.upload req st).2.2.get? n = some (Main.Ev.putMeta j b) →
        ∃ m f, m < n ∧
          (Main.upload req st).2.2.get? m = some (Main.Ev.putImg f true)) ∧
      ((Main.upload req st).2.2.any Main.isMetaFailEv = true →
        (Main.upload req st).1 =
          Main.Res.serverError "File upload failed")) ∧
    ((∀ n j b, (AppPy.upload areq ast).2.2.get? n =
          some (AppPy.Ev.putMeta j b) →
        ∃ m f, m < n ∧
          (AppPy.upload areq ast).2.2.get? m =
            some (AppPy.Ev.putImg f true)) ∧
      ((AppPy.upload areq ast).2.2.any AppPy.isMetaFailEv = true →
        (AppPy.upload areq ast).1 = AppPy.Res.crash)) :=
  ⟨main_upload_trace_ordering req st, appPy_upload_trace_ordering areq ast⟩

/-- C4, witness: in both handlers, at a concrete successful upload the
metadata put (trace position 2) is preceded by the successful image put
(position 1); and at a concrete upload whose metadata put fails, each
handler reports failure (500). -/
theorem C4_image_before_metadata_witness :
    (∃ m f, m < 2 ∧
      (Main.upload ⟨true, "cat.jpg", "IMG", .exn, true, true⟩
          ⟨[], []⟩).2.2.get? m = some (Main.Ev.putImg f true)) ∧
    (Main.upload ⟨true, "cat.jpg", "IMG", .exn, true, false⟩ ⟨[], []⟩).1 =
      Main.Res.serverError "File upload failed" ∧
    (∃ m f, m < 2 ∧
      (AppPy.upload ⟨true, "cat.jpg", "IMG",
          .text "\x7b\"title\": \"A cat\", \"description\": \"naps\"\x7d",
          false, false⟩ ⟨[], []⟩).2.2.get? m =
        some (AppPy.Ev.putImg f true)) ∧
    (AppPy.upload ⟨true, "cat.jpg", "IMG",
        .text "\x7b\"title\": \"A cat\", \"description\": \"naps\"\x7d",
        false, true⟩ ⟨[], []⟩).1 = AppPy.Res.crash :=
  ⟨(C4_image_before_metadata ⟨true, "cat.jpg", "IMG", .exn, true, true⟩
      ⟨true, "cat.jpg", "IMG",
        .text "\x7b\"title\": \"A cat\", \"description\": \"naps\"\x7d",
        false, false⟩ ⟨[], []⟩ ⟨[], []⟩).1.1 2 "cat.json" true rfl,
   (C4_image_before_metadata ⟨true, "cat.jpg", "IMG", .exn, true, false⟩
      ⟨true, "cat.jpg", "IMG",
        .text "\x7b\"title\": \"A cat\", \"description\": \"naps\"\x7d",
        false, false⟩ ⟨[], []⟩ ⟨[], []⟩).1.2 rfl,
   (C4_image_before_metadata ⟨true, "cat.jpg", "IMG", .exn, true, true⟩
      ⟨true, "cat.jpg", "IMG",
        .text "\x7b\"title\": \"A cat\", \"description\": \"naps\"\x7d",
        false, false⟩ ⟨[], []⟩ ⟨[], []⟩).2.1 2 "cat.txt" true rfl,
   (C4_image_before_metadata ⟨true, "cat.jpg", "IMG", .exn, true, true⟩
      ⟨true, "cat.jpg", "IMG",
        .text "\x7b\"title\": \"A cat\", \"description\": \"naps\"\x7d",
        false, true⟩ ⟨[], []⟩ ⟨[], []⟩).2.2 rfl⟩

/-! ## Claim C5 -/

/-- C5, counterexample.  The claim ("never returning a default/empty
success") fails on `app.py`: its `view_file` on a filename with no
metadata file renders a success page with default title and description
instead of a 404. -/
theorem C5_counterexample :
    AppPy.view_file "cat.jpg" [] =
      AppPy.ViewRes.page "cat.jpg" "No title" "No description" :=
  rfl

/-- C5, amended.  `main.py`'s `view_image` behaves as claimed: 404 when no
metadata object exists for the derived key, 500 when the stored metadata
is not valid JSON, and otherwise (string fields, image object present,
signing succeeds) the parsed title and description plus a signed URL with
the default one-hour (3600 s) expiry.  `app.py`'s `view_file` instead
answers a default success page when the metadata file is missing. -/
theorem C5_amended (signOk : Bool) (blobs : List (String × String))
    (fn : String) (h0 : fn ≠ "") :
    (lookupKey blobs (Main.json_filename fn) = none →
      Main.view_image signOk blobs (some fn) =
        .notFound "Metadata not found") ∧
    (∀ c, lookupKey blobs (Main.json_filename fn) = some c →
      json_loads c = none →
      Main.view_image signOk blobs (some fn) =
        .serverError "Invalid metadata format") ∧
    (∀ c t d img, lookupKey blobs (Main.json_filename fn) = some c →
      json_loads c =
        some (.jobj [("title", .jstr t), ("description", .jstr d)]) →
      lookupKey blobs fn = some img → signOk = true →
      Main.view_image signOk blobs (some fn) = .page fn 3600 t d) := by
  refine ⟨fun hmiss => ?_, fun c hc hbad => ?_, fun c t d img hc hjson himg hsign => ?_⟩
  · simp [Main.view_image, h0, hmiss]
  · simp [Main.view_image, h0, hc, hbad]
  · have htitle :
        jgetD [("title", .jstr t), ("description", .jstr d)] "title"
          (.jstr "No title available") = .jstr t := rfl
    have hdesc :
        jgetD [("title", .jstr t), ("description", .jstr d)] "description"
          (.jstr "No description available") = .jstr d := rfl
    simp [Main.view_image, h0, hc, hjson, htitle, hdesc,
      Main.generate_temporary_url, himg, hsign, pyStr]

/-- C5, witness: the three read-path behaviors at concrete stores. -/
theorem C5_amended_witness :
    Main.view_image true [] (some "cat.jpg") =
      .notFound "Metadata not found" ∧
    Main.view_image true [("cat.json", "oops")] (some "cat.jpg") =
      .serverError "Invalid metadata format" ∧
    Main.view_image true
      [("cat.json", jdump_td (.jstr "A cat") (.jstr "naps")),
       ("cat.jpg", "IMG")] (some "cat.jpg") =
      .page "cat.jpg" 3600 "A cat" "naps" :=
  ⟨(C5_amended true [] "cat.jpg" (by decide)).1 rfl,
   (C5_amended true [("cat.json", "oops")] "cat.jpg" (by decide)).2.1
     "oops" rfl rfl,
   (C5_amended true
       [("cat.json", jdump_td (.jstr "A cat") (.jstr "naps")),
        ("cat.jpg", "IMG")] "cat.jpg" (by decide)).2.2
     (jdump_td (.jstr "A cat") (.jstr "naps")) "A cat" "naps" "IMG"
     rfl rfl rfl rfl⟩

/-! ## Claim C6 -/

/-- C6, counterexample.  Uploading `cat.png` does persist exactly the two
objects `cat.png` and `cat.json`, but `list_uploaded_images` filters on
`.jpg`/`.jpeg` only, so `listImages()` does not include `cat.png`,
refuting the claim's round-trip for `.png` names. -/
theorem C6_counterexample :
    (Main.upload ⟨true, "cat.png", "IMG",
        .text "\x7b\"title\": \"A cat\", \"description\": \"naps\"\x7d",
        true, true⟩ ⟨[], []⟩).2.1.blobs =
      [("cat.png", "IMG"),
       ("cat.json", jdump_td (.jstr "A cat") (.jstr "naps"))] ∧
    ¬ "cat.png" ∈ Main.list_uploaded_images true
      (Main.upload ⟨true, "cat.png", "IMG",
          .text "\x7b\"title\": \"A cat\", \"description\": \"naps\"\x7d",
          true, true⟩ ⟨[], []⟩).2.1.blobs :=
  ⟨rfl, by decide⟩

/-- C6, amended.  For a successfully uploaded image whose captioning
parsed to string fields `t`, `d`: exactly the two objects `name.ext`
(the bytes) and `name.json` (the serialized `{title, description}`
record) are persisted — from an empty store the bucket holds exactly
those two — and `viewImage` returns a one-hour signed URL with the
persisted title and description; but `listImages()` includes the name
only for `.jpg` (or `.jpeg`) extensions, not `.png`. -/
theorem C6_amended (req : Main.UploadReq) (st : St) (t d : String)
    (h1 : req.hasFile = true) (h2 : req.filename ≠ "")
    (h6 : Main.json_filename req.filename ≠ req.filename)
    (hcap : Main.generative_ai req.cap =
      .jobj [("title", .jstr t), ("description", .jstr d)])
    (h4 : req.imgPutOk = true) (h5 : req.metaPutOk = true)
    (hjpg : strEndsWith req.filename ".jpg" = true)
    (hround : json_loads (jdump_td (.jstr t) (.jstr d)) =
      some (.jobj [("title", .jstr t), ("description", .jstr d)])) :
    lookupKey (Main.upload req st).2.1.blobs req.filename =
      some req.content ∧
    lookupKey (Main.upload req st).2.1.blobs (Main.json_filename req.filename) =
      some (jdump_td (.jstr t) (.jstr d)) ∧
    (st.blobs = [] → (Main.upload req st).2.1.blobs =
      [(req.filename, req.content),
       (Main.json_filename req.filename, jdump_td (.jstr t) (.jstr d))]) ∧
    req.filename ∈
      Main.list_uploaded_images true (Main.upload req st).2.1.blobs ∧
    Main.view_image true (Main.upload req st).2.1.blobs (some req.filename) =
      .page req.filename 3600 t d := by
  rw [Main.upload_eq_success req st _ h1 h2 hcap h4 h5]
  have htd :
      jdump_td (jgetD [("title", .jstr t), ("description", .jstr d)] "title"
          (.jstr "No title present"))
        (jgetD [("title", .jstr t), ("description", .jstr d)] "description"
          (.jstr "No description present")) = jdump_td (.jstr t) (.jstr d) := rfl
  rw [htd]
  have himg :
      lookupKey
        (insertKey (insertKey st.blobs req.filename req.content)
          (Main.json_filename req.filename) (jdump_td (.jstr t) (.jstr d)))
        req.filename = some req.content := by
    rw [lookupKey_insertKey_ne _ _ _ _ (Ne.symm h6)]
    exact lookupKey_insertKey_self _ _ _
  have hmeta :
      lookupKey
        (insertKey (insertKey st.blobs req.filename req.content)
          (Main.json_filename req.filename) (jdump_td (.jstr t) (.jstr d)))
        (Main.json_filename req.filename) =
        some (jdump_td (.jstr t) (.jstr d)) :=
    lookupKey_insertKey_self _ _ _
  refine ⟨himg, hmeta, fun hnil => ?_, ?_, ?_⟩
  · rw [hnil]
    exact insert2_nil_of_ne _ _ _ _ (Ne.symm h6)
  · have hmem := mem_map_fst_of_lookupKey _ _ _ himg
    simp only [Main.list_uploaded_images, if_pos]
    exact List.mem_filter.2 ⟨hmem, by simp [hjpg]⟩
  · exact (C5_amended true _ req.filename h2).2.2
      (jdump_td (.jstr t) (.jstr d)) t d req.content hmeta hround himg rfl

/-- C6, witness for the amended round-trip at `cat.jpg`. -/
theorem C6_amended_witness :
    lookupKey
      (Main.upload ⟨true, "cat.jpg", "IMG",
          .text "\x7b\"title\": \"A cat\", \"description\": \"naps\"\x7d",
          true, true⟩ ⟨[], []⟩).2.1.blobs "cat.jpg" = some "IMG" ∧
    lookupKey
      (Main.upload ⟨true, "cat.jpg", "IMG",
          .text "\x7b\"title\": \"A cat\", \"description\": \"naps\"\x7d",
          true, true⟩ ⟨[], []⟩).2.1.blobs "cat.json" =
      some (jdump_td (.jstr "A cat") (.jstr "naps")) ∧
    (([] : List (String × String)) = [] →
      (Main.upload ⟨true, "cat.jpg", "IMG",
          .text "\x7b\"title\": \"A cat\", \"description\": \"naps\"\x7d",
          true, true⟩ ⟨[], []⟩).2.1.blobs =
        [("cat.jpg", "IMG"),
         ("cat.json", jdump_td (.jstr "A cat") (.jstr "naps"))]) ∧
    "cat.jpg" ∈ Main.list_uploaded_images true
      (Main.upload ⟨true, "cat.jpg", "IMG",
          .text "\x7b\"title\": \"A cat\", \"description\": \"naps\"\x7d",
          true, true⟩ ⟨[], []⟩).2.1.blobs ∧
    Main.view_image true
      (Main.upload ⟨true, "cat.jpg", "IMG",
          .text "\x7b\"title\": \"A cat\", \"description\": \"naps\"\x7d",
          true, true⟩ ⟨[], []⟩).2.1.blobs (some "cat.jpg") =
      .page "cat.jpg" 3600 "A cat" "naps" :=
  C6_amended ⟨true, "cat.jpg", "IMG",
      .text "\x7b\"title\": \"A cat\", \"description\": \"naps\"\x7d",
      true, true⟩ ⟨[], []⟩ "A cat" "naps"
    rfl (by decide) (by decide) rfl rfl rfl (by decide) rfl

/-! ## Claim C7 -/

/-- C7, counterexample.  In `app.py` an upload with an empty filename is
not rejected with a validation 400: `file.save(os.path.join('files', ''))`
raises an uncaught exception, which surfaces as a 500 (`crash`), so the
claim fails on that handler. -/
theorem C7_counterexample :
    AppPy.upload ⟨true, "", "IMG", .text "x", false, false⟩ ⟨[], []⟩ =
      (AppPy.Res.crash, ⟨[], []⟩, []) ∧
    AppPy.Res.crash ≠ AppPy.Res.badRequestKey ∧
    (∀ m, AppPy.Res.crash ≠ AppPy.Res.errorPage m) :=
  ⟨rfl, by decide, fun m h => by cases h⟩

/-- C7, amended.  In `main.py`, a request whose file field is absent or
whose filename is empty is answered with a 400 ("No file uploaded" /
"No file selected"), the state is untouched, and no external call
(captioning or storage) is made — the trace is empty.  (In `app.py` a
missing field also yields a framework 400 before any external call, but
an empty filename crashes with a 500 instead of a validation error.) -/
theorem C7_amended (req : Main.UploadReq) (st : St)
    (h : req.hasFile = false ∨ req.filename = "") :
    (∃ m, (Main.upload req st).1 = Main.Res.badRequest m) ∧
    (Main.upload req st).2.1 = st ∧
    (Main.upload req st).2.2 = [] := by
  rcases h with hf | he
  · rw [Main.upload_eq_no_file req st hf]
    exact ⟨⟨"No file uploaded", rfl⟩, rfl, rfl⟩
  · by_cases hf : req.hasFile = true
    · rw [Main.upload_eq_empty_name req st hf he]
      exact ⟨⟨"No file selected", rfl⟩, rfl, rfl⟩
    · rw [Main.upload_eq_no_file req st (Bool.not_eq_true _ ▸ hf)]
      exact ⟨⟨"No file uploaded", rfl⟩, rfl, rfl⟩

/-- C7, witness: an upload with an empty filename is rejected with a 400,
leaves the state alone and makes no external call. -/
theorem C7_amended_witness :
    (∃ m, (Main.upload ⟨true, "", "IMG", .exn, true, true⟩
        ⟨[("a", "b")], []⟩).1 = Main.Res.badRequest m) ∧
    (Main.upload ⟨true, "", "IMG", .exn, true, true⟩
        ⟨[("a", "b")], []⟩).2.1 = ⟨[("a", "b")], []⟩ ∧
    (Main.upload ⟨true, "", "IMG", .exn, true, true⟩
        ⟨[("a", "b")], []⟩).2.2 = [] :=
  C7_amended ⟨true, "", "IMG", .exn, true, true⟩ ⟨[("a", "b")], []⟩
    (Or.inr rfl)

/-! ## Claim C8 -/

/-- C8, counterexample.  The staging name IS derived from the untrusted
client filename (`/tmp/<filename>`), and the persisted destination name
is the raw client filename: for `../evil.jpg` both the staging path and
the destination object name keep the `..` traversal segment, refuting
the collision-free-staging and sanitization claims. -/
theorem C8_counterexample :
    Main.staging_path "../evil.jpg" = "/tmp/../evil.jpg" ∧
    containsTraversal (Main.staging_path "../evil.jpg") = true ∧
    (Main.upload ⟨true, "../evil.jpg", "IMG", .exn, true, true⟩
        ⟨[], []⟩).2.2 =
      [.capCall, .putImg "../evil.jpg" true, .putMeta "../evil.json" true] ∧
    containsTraversal "../evil.jpg" = true :=
  ⟨rfl, by decide, rfl, by decide⟩

/-- C8, amended.  For every upload that reaches staging, `main.py` stages
under `/tmp/` plus the client filename verbatim (no collision-free
temporary name), and the image put uses the raw client filename as the
destination object name with no sanitization at all. -/
theorem C8_amended (req : Main.UploadReq) (st : St)
    (fields : List (String × JVal))
    (h1 : req.hasFile = true) (h2 : req.filename ≠ "")
    (h3 : Main.generative_ai req.cap = .jobj fields)
    (habs : strStartsWith req.filename "/" = false) :
    Main.staging_path req.filename = "/tmp/" ++ req.filename ∧
    Main.Ev.putImg req.filename req.imgPutOk ∈ (Main.upload req st).2.2 := by
  constructor
  · unfold Main.staging_path path_join
    rw [habs]
    rfl
  · by_cases h4 : req.imgPutOk = true
    · by_cases h5 : req.metaPutOk = true
      · rw [Main.upload_eq_success req st fields h1 h2 h3 h4 h5, h4]
        simp
      · rw [Main.upload_eq_meta_fail req st fields h1 h2 h3 h4
          (Bool.not_eq_true _ ▸ h5), h4]
        simp
    · have h4f : req.imgPutOk = false := by
        cases hb : req.imgPutOk
        · rfl
        · exact absurd hb h4
      rw [Main.upload_eq_img_fail req st fields h1 h2 h3 h4f, h4f]
      simp

/-- C8, witness: a traversal filename is staged and persisted verbatim. -/
theorem C8_amended_witness :
    Main.staging_path "../evil.jpg" = "/tmp/" ++ "../evil.jpg" ∧
    Main.Ev.putImg "../evil.jpg" true ∈
      (Main.upload ⟨true, "../evil.jpg", "IMG", .exn, true, true⟩
        ⟨[], []⟩).2.2 :=
  C8_amended ⟨true, "../evil.jpg", "IMG", .exn, true, true⟩ ⟨[], []⟩
    [("title", .jstr "Error"),
     ("description", .jstr "An error occurred while processing the image.")]
    rfl (by decide) rfl (by decide)

/-! ## Claim C9 -/

/-- C9, counterexample.  `main.py`'s `list_uploaded_images` filters on
`.jpg`/`.jpeg` only: a store containing `a.png` yields an empty listing,
although the claim says `.png` names are returned. -/
theorem C9_counterexample :
    Main.list_uploaded_images true [("a.png", "x")] = [] ∧
    strEndsWith "a.png" ".png" = true :=
  ⟨rfl, by decide⟩

/-- C9, amended.  `list_uploaded_images` (with the storage listing
succeeding) returns exactly the object names ending in `.jpg` or
`.jpeg` — not `.png` — in store order.  (`app.py`'s `list_files` applies
no filter at all.) -/
theorem C9_amended (blobs : List (String × String)) (n : String) :
    n ∈ Main.list_uploaded_images true blobs ↔
      n ∈ blobs.map Prod.fst ∧
        (strEndsWith n ".jpg" = true ∨ strEndsWith n ".jpeg" = true) := by
  simp [Main.list_uploaded_images, List.mem_filter]

/-! ## Claim C10 -/

/-- C10, confirmed.  `generative_ai` in `main.py` is total over the
captioning-service outcomes: an upload failure and a raised exception
map to fixed error-text dicts, unparseable text maps to the
"Invalid Response" dict, and in general every outcome yields either one
of those dicts or the parsed JSON value — the function never raises.
Consequently the upload handler persists both the image and the
error-text metadata and succeeds even when the service is entirely
unreachable. -/
theorem C10_generative_ai_total :
    Main.generative_ai .uploadFail =
      .jobj [("title", .jstr "Upload Error"),
             ("description", .jstr "Failed to upload image to Gemini AI.")] ∧
    Main.generative_ai .exn =
      .jobj [("title", .jstr "Error"),
             ("description", .jstr "An error occurred while processing the image.")] ∧
    (∀ t, json_loads (Main.strip_fences t) = none →
      Main.generative_ai (.text t) =
        .jobj [("title", .jstr "Invalid Response"),
               ("description", .jstr "Gemini AI returned an invalid response.")]) ∧
    (∀ o, isJObj (Main.generative_ai o) = true ∨
      ∃ t v, o = .text t ∧ json_loads (Main.strip_fences t) = some v ∧
        Main.generative_ai o = v) ∧
    (∀ (req : Main.UploadReq) (st : St), req.hasFile = true →
      req.filename ≠ "" →
      Main.json_filename req.filename ≠ req.filename → req.cap = .exn →
      req.imgPutOk = true → req.metaPutOk = true →
      (Main.upload req st).1 = Main.Res.redirect req.filename ∧
      lookupKey (Main.upload req st).2.1.blobs req.filename =
        some req.content ∧
      lookupKey (Main.upload req st).2.1.blobs
          (Main.json_filename req.filename) =
        some (jdump_td (.jstr "Error")
          (.jstr "An error occurred while processing the image."))) := by
  refine ⟨rfl, rfl, fun t ht => ?_, fun o => ?_,
    fun req st h1 h2 h6 hcap h4 h5 => ?_⟩
  · simp [Main.generative_ai, ht]
  · cases o with
    | uploadFail => exact Or.inl rfl
    | exn => exact Or.inl rfl
    | text t =>
      cases hp : json_loads (Main.strip_fences t) with
      | none => exact Or.inl (by simp [Main.generative_ai, hp, isJObj])
      | some v => exact Or.inr ⟨t, v, rfl, hp, by simp [Main.generative_ai, hp]⟩
  · have h3 : Main.generative_ai req.cap =
        .jobj [("title", .jstr "Error"),
               ("description", .jstr "An error occurred while processing the image.")] := by
      rw [hcap]
      rfl
    rw [Main.upload_eq_success req st _ h1 h2 h3 h4 h5]
    refine ⟨rfl, ?_, ?_⟩
    · rw [lookupKey_insertKey_ne _ _ _ _ (Ne.symm h6)]
      exact lookupKey_insertKey_self _ _ _
    · exact lookupKey_insertKey_self _ _ _

/-- C10, witness: the unparseable-text case at `"hello"`, and the
unreachable-service upload at a concrete request. -/
theorem C10_generative_ai_total_witness :
    Main.generative_ai (.text "hello") =
      .jobj [("title", .jstr "Invalid Response"),
             ("description", .jstr "Gemini AI returned an invalid response.")] ∧
    (Main.upload ⟨true, "owl.jpg", "IMG", .exn, true, true⟩ ⟨[], []⟩).1 =
      Main.Res.redirect "owl.jpg" ∧
    lookupKey
      (Main.upload ⟨true, "owl.jpg", "IMG", .exn, true, true⟩
        ⟨[], []⟩).2.1.blobs "owl.jpg" = some "IMG" ∧
    lookupKey
      (Main.upload ⟨true, "owl.jpg", "IMG", .exn, true, true⟩
        ⟨[], []⟩).2.1.blobs "owl.json" =
      some (jdump_td (.jstr "Error")
        (.jstr "An error occurred while processing the image.")) :=
  ⟨C10_generative_ai_total.2.2.1 "hello" rfl,
   (C10_generative_ai_total.2.2.2.2 ⟨true, "owl.jpg", "IMG", .exn, true, true⟩
      ⟨[], []⟩ rfl (by decide) (by decide) rfl rfl rfl).1,
   (C10_generative_ai_total.2.2.2.2 ⟨true, "owl.jpg", "IMG", .exn, true, true⟩
      ⟨[], []⟩ rfl (by decide) (by decide) rfl rfl rfl).2.1,
   (C10_generative_ai_total.2.2.2.2 ⟨true, "owl.jpg", "IMG", .exn, true, true⟩
      ⟨[], []⟩ rfl (by decide) (by decide) rfl rfl rfl).2.2⟩

end ImgApp
